import Mathlib

/-!
Verification of the Identity Abstraction & Recovery Classification Engine
of the better-auth identifier-table branch.

The repository material consists of the test suites, test helpers and design
documents for the engine; the engine implementation itself is not part of the
source tree.  The definitions below are therefore modelled from the
specification (and cross-checked against the behaviour the test suites pin
down), and the theorems settle the specification's claims against this model.
-/

namespace BetterAuth

/-- Modelled from the spec: the persisted Identifier record (§3 DATA MODEL),
whose implementation (db schema and entity) is missing from the source tree.
Only the normalized value is persisted; `credentialHash` is optional and only
present for password-bearing identifier types; `provider` stands for the
provider name held in the opaque `metadata` bag. -/
structure Identifier where
  id : Nat
  userId : Nat
  type : String
  value : String
  verified : Bool
  credentialHash : Option String
  provider : Option String
deriving Repr, DecidableEq

/-- Modelled from the spec: the identifier table plus the id counters of the
storage adapter (§6), which is missing from the source tree.  The list order
is creation order (new rows are appended). -/
structure Store where
  identifiers : List Identifier
  nextId : Nat
  nextUserId : Nat
deriving Repr, DecidableEq

/-- Drop leading and trailing whitespace from a character list. -/
def trimChars (cs : List Char) : List Char :=
  ((cs.dropWhile Char.isWhitespace).reverse.dropWhile Char.isWhitespace).reverse

/-- Trim whitespace from both ends of a string. -/
def strTrim (s : String) : String := String.mk (trimChars s.data)

/-- Lower-case every character of a string. -/
def strLower (s : String) : String := String.mk (s.data.map Char.toLower)

/-- Modelled from the spec: phone normalization (§4.1) strips formatting,
keeping digits and the leading plus sign. -/
def normalizePhone (s : String) : String :=
  String.mk (s.data.filter (fun c => c.isDigit || c == '+'))

/-- Modelled from the spec: the Normalizer (§4.1), missing from the source
tree.  Email: trim and lower-case the whole address.  Username: trim only,
case preserved.  Phone: trim and strip formatting.  Unknown types: trim. -/
def normalize (t raw : String) : String :=
  if t == "email" then strLower (strTrim raw)
  else if t == "username" then strTrim raw
  else if t == "phone" then normalizePhone (strTrim raw)
  else strTrim raw

/-- Look up an identifier row by type and (already normalized) value. -/
def Store.lookup (s : Store) (t nv : String) : Option Identifier :=
  s.identifiers.find? (fun i => i.type == t && i.value == nv)

/-- All identifier rows owned by a user, in creation order. -/
def Store.userIdentifiers (s : Store) (uid : Nat) : List Identifier :=
  s.identifiers.filter (fun i => i.userId == uid)

/-- Number of identifier rows carrying a given (type, normalizedValue) key. -/
def Store.countKey (s : Store) (t nv : String) : Nat :=
  (s.identifiers.filter (fun i => i.type == t && i.value == nv)).length

/-- Modelled from the spec: the error kinds of §7, raised by the missing
engine implementation. -/
inductive AuthError where
  | invalidFormat
  | identifierConflict
  | identifierNotFound
  | recoveryInsufficient
  | legacyDisabled
  | unsupportedQuery
  | invalidCredentials
deriving Repr, DecidableEq

/-- Modelled from the spec: the caller-facing message of each error (§7).
Enumeration resistance demands that the sign-in failure for a wrong
credential and for an unknown identifier share one message, and that
sign-up conflict and format failures share one opaque message. -/
def AuthError.message : AuthError → String
  | .invalidCredentials => "invalid identifier or password"
  | .identifierConflict => "unable to create account"
  | .invalidFormat => "unable to create account"
  | .identifierNotFound => "not found"
  | .recoveryInsufficient => "account recovery level insufficient"
  | .legacyDisabled => "legacy operations are disabled"
  | .unsupportedQuery => "unsupported query"

/-- Modelled from the spec: password hashing is an external primitive (§1);
it is abstracted as an injective tagging function. -/
def hashPassword (pw : String) : String :=
  String.append "hashed:" pw

/-- Modelled from the spec: the Uniqueness & Conflict Resolver (§4.2),
missing from the source tree.  Normalizes, then attempts an atomic create:
a free key creates a fresh row; a key held by the same user is an idempotent
no-op success; a key held by a different user fails with IdentifierConflict
and leaves the store untouched. -/
def createIdentifier (s : Store) (uid : Nat) (t raw : String) (verified : Bool)
    (hash : Option String) (prov : Option String) :
    Except AuthError (Store × Identifier) :=
  let nv := normalize t raw
  match s.lookup t nv with
  | some e =>
      if e.userId == uid then Except.ok (s, e)
      else Except.error AuthError.identifierConflict
  | none =>
      let row : Identifier :=
        { id := s.nextId, userId := uid, type := t, value := nv,
          verified := verified, credentialHash := hash, provider := prov }
      Except.ok
        ({ identifiers := s.identifiers ++ [row], nextId := s.nextId + 1,
           nextUserId := s.nextUserId }, row)

/-- Modelled from the spec: the per-type verification default applied by
sign-up (§4.6 routing on the type discriminant, pinned down by the sign-up
test suite): username identifiers are created pre-verified, email and phone
identifiers start unverified. -/
def defaultVerified (t : String) : Bool := t == "username"

/-- Modelled from the spec: signUpWithIdentifier (§6 public operations),
missing from the source tree.  Allocates a fresh user and creates its first
identifier with the type's verification default and the caller's password
hash; a conflict fails the whole sign-up, leaving prior state intact. -/
def signUpWithIdentifier (s : Store) (t raw pw : String) :
    Except AuthError (Store × Nat × Identifier) :=
  let uid := s.nextUserId
  let s1 : Store := { s with nextUserId := s.nextUserId + 1 }
  match createIdentifier s1 uid t raw (defaultVerified t) (some (hashPassword pw)) none with
  | Except.ok (s2, row) => Except.ok (s2, uid, row)
  | Except.error e => Except.error e

/-- Recovery levels, ordered by decreasing recoverability (§3). -/
inductive RecoveryLevel where
  | anonymous
  | pseudonymous
  | partialTrust
  | full
deriving Repr, DecidableEq

/-- Numeric rank of a recovery level: FULL > PARTIAL > PSEUDONYMOUS >
ANONYMOUS. -/
def RecoveryLevel.rank : RecoveryLevel → Nat
  | .anonymous => 0
  | .pseudonymous => 1
  | .partialTrust => 2
  | .full => 3

/-- The synthetic anonymous-account marker identifier (§4.5 rule 4). -/
def isAnonymousMarker (i : Identifier) : Bool := i.type == "anonymous"

/-- A verified direct-contact identifier: email or phone with verified set. -/
def isVerifiedContact (i : Identifier) : Bool :=
  (i.type == "email" || i.type == "phone") && i.verified

/-- A verified externally-federated identifier (oauth). -/
def isVerifiedFederated (i : Identifier) : Bool :=
  i.type == "oauth" && i.verified

/-- Modelled from the spec: the Recovery Classifier (§4.5), missing from the
source tree.  Pure function over the identifier list, evaluated top-down,
first matching rule wins. -/
def recoveryLevel (ids : List Identifier) : RecoveryLevel :=
  if ids.any isVerifiedContact then .full
  else if ids.any isVerifiedFederated then .partialTrust
  else if ids.any (fun i => !(isAnonymousMarker i)) then .pseudonymous
  else .anonymous

/-- Engine operating modes (§4.6). -/
inductive Mode where
  | virtualMode
  | directMode
  | legacyMode
deriving Repr, DecidableEq

/-- Modelled from the spec: the configuration surface accepted at engine
construction (§6), missing from the source tree. -/
structure Config where
  mode : Mode
  minimumRecoveryLevel : Option RecoveryLevel
deriving Repr, DecidableEq

/-- Whether a stored identifier's credential matches a submitted password. -/
def checkPassword (i : Identifier) (pw : String) : Bool :=
  i.credentialHash == some (hashPassword pw)

/-- Modelled from the spec: signInWithIdentifier (§6 public operations),
missing from the source tree.  Looks the identifier up by normalized value;
an unknown identifier and a wrong password fail through the same
invalidCredentials error; with a configured minimum recovery level the
user's level is recomputed from the identifier set fetched for this request
and gates the result. -/
def signInWithIdentifier (cfg : Config) (s : Store) (t raw pw : String) :
    Except AuthError Nat :=
  match s.lookup t (normalize t raw) with
  | none => Except.error AuthError.invalidCredentials
  | some i =>
      if checkPassword i pw then
        match cfg.minimumRecoveryLevel with
        | none => Except.ok i.userId
        | some lvl =>
            if (recoveryLevel (s.userIdentifiers i.userId)).rank < lvl.rank
            then Except.error AuthError.recoveryInsufficient
            else Except.ok i.userId
      else Except.error AuthError.invalidCredentials

/-- Modelled from the spec: addIdentifier (§6 public operations), missing
from the source tree: attach a further identifier to an existing user
through the Uniqueness & Conflict Resolver. -/
def addIdentifier (s : Store) (uid : Nat) (t raw : String) (verified : Bool)
    (hash : Option String) : Except AuthError (Store × Identifier) :=
  createIdentifier s uid t raw verified hash none

/-- The user's email identifiers in creation order. -/
def emailIdentifiers (s : Store) (uid : Nat) : List Identifier :=
  s.identifiers.filter (fun i => i.userId == uid && i.type == "email")

/-- The first email identifier of a user ordered by creation time — the one
backing the virtual email field (§4.3). -/
def firstEmailIdentifier (s : Store) (uid : Nat) : Option Identifier :=
  (emailIdentifiers s uid).head?

/-- Remove the identifier row with the given row id. -/
def deleteIdentifier (s : Store) (rowId : Nat) : Store :=
  { s with identifiers := s.identifiers.filter (fun i => i.id != rowId) }

/-- Modelled from the spec: the Virtual Field Mapper's decomposition of a
legacy email write (§4.3), missing from the source tree.  Outside virtual
mode the legacy path is rejected.  In virtual mode: no email identifier yet
means create one; a write whose normalized value equals the stored one only
touches the verification flag when the caller set it, preserving the prior
verification status and credential hash; a write with a different normalized
value deletes the old identifier and creates a new one whose verification
status is the caller's value or else false, carrying no credential hash. -/
def updateUserEmail (cfg : Config) (s : Store) (uid : Nat) (newEmail : String)
    (emailVerified : Option Bool) : Except AuthError Store :=
  match cfg.mode with
  | Mode.directMode => Except.error AuthError.legacyDisabled
  | Mode.legacyMode => Except.error AuthError.legacyDisabled
  | Mode.virtualMode =>
    let nv := normalize "email" newEmail
    match firstEmailIdentifier s uid with
    | none =>
        match createIdentifier s uid "email" newEmail (emailVerified.getD false) none none with
        | Except.ok (s1, _) => Except.ok s1
        | Except.error e => Except.error e
    | some old =>
        if old.value == nv then
          Except.ok { s with identifiers := s.identifiers.map (fun i =>
            if i.id == old.id then { i with verified := emailVerified.getD i.verified }
            else i) }
        else
          let s1 := deleteIdentifier s old.id
          match createIdentifier s1 uid "email" newEmail (emailVerified.getD false) none none with
          | Except.ok (s2, _) => Except.ok s2
          | Except.error e => Except.error e

/-- Legacy filter predicates over the flat user shape (§4.4). -/
inductive LegacyFilter where
  | emailEq (v : String)
  | fieldEq (f v : String)
  | and (a b : LegacyFilter)
  | or (a b : LegacyFilter)
deriving Repr, DecidableEq

/-- Storage-level filter predicates over the identifier relation (§4.4). -/
inductive StorageFilter where
  | identExists (t nv : String)
  | fieldEq (f v : String)
  | and (a b : StorageFilter)
  | or (a b : StorageFilter)
deriving Repr, DecidableEq

/-- Modelled from the spec: the Query Translator (§4.4), missing from the
source tree.  An equality filter on the legacy email field becomes a
relational existence filter over the identifier relation on the normalized
value; composite predicates are rewritten recursively, preserving structure;
other field filters pass through. -/
def translateFilter : LegacyFilter → StorageFilter
  | LegacyFilter.emailEq v => StorageFilter.identExists "email" (normalize "email" v)
  | LegacyFilter.fieldEq f v => StorageFilter.fieldEq f v
  | LegacyFilter.and a b => StorageFilter.and (translateFilter a) (translateFilter b)
  | LegacyFilter.or a b => StorageFilter.or (translateFilter a) (translateFilter b)

/-- Evaluate a storage filter against a user: `others` decides the non-legacy
flat field predicates, which the translator leaves untouched. -/
def evalStorageFilter (s : Store) (uid : Nat) (others : String → String → Bool) :
    StorageFilter → Bool
  | StorageFilter.identExists t nv =>
      s.identifiers.any (fun i => i.userId == uid && i.type == t && i.value == nv)
  | StorageFilter.fieldEq f v => others f v
  | StorageFilter.and a b =>
      evalStorageFilter s uid others a && evalStorageFilter s uid others b
  | StorageFilter.or a b =>
      evalStorageFilter s uid others a || evalStorageFilter s uid others b

/-- A linked external account of a legacy user record (§4.7). -/
structure LinkedAccount where
  provider : String
  providerAccountId : String
deriving Repr, DecidableEq

/-- A legacy flat user record as seen by the Migration Runner (§4.7). -/
structure LegacyUser where
  id : Nat
  email : Option String
  emailVerified : Bool
  passwordHash : Option String
  accounts : List LinkedAccount
deriving Repr, DecidableEq

/-- Create an identifier row unless the (type, normalizedValue) key is
already taken; a taken key (the user's own row or a conflicting one) leaves
the store unchanged, keeping migration failures per-user isolated (§7). -/
def createIfAbsent (s : Store) (uid : Nat) (t raw : String) (verified : Bool)
    (hash : Option String) (prov : Option String) : Store :=
  let nv := normalize t raw
  match s.lookup t nv with
  | some _ => s
  | none =>
      { identifiers := s.identifiers ++
          [{ id := s.nextId, userId := uid, type := t, value := nv,
             verified := verified, credentialHash := hash, provider := prov }],
        nextId := s.nextId + 1, nextUserId := s.nextUserId }

/-- Derive one oauth identifier per linked external account, verified, with
the provider name kept as metadata (§4.7). -/
def migrateAccounts (uid : Nat) : Store → List LinkedAccount → Store
  | s, [] => s
  | s, a :: rest =>
      migrateAccounts uid
        (createIfAbsent s uid "oauth"
          (String.append a.provider (String.append "|" a.providerAccountId))
          true none (some a.provider)) rest

/-- Modelled from the spec: the Migration Runner's migrateUser (§4.7),
missing from the source tree.  A user already holding identifier records is
left untouched and its existing identifiers are returned unchanged;
otherwise one email identifier is derived from (email, emailVerified,
passwordHash) when email is set, and one verified oauth identifier per
linked account. -/
def migrateUser (s : Store) (u : LegacyUser) : Store × List Identifier :=
  let existing := s.userIdentifiers u.id
  if existing.isEmpty then
    let s1 := match u.email with
      | some e => createIfAbsent s u.id "email" e u.emailVerified u.passwordHash none
      | none => s
    let s2 := migrateAccounts u.id s1 u.accounts
    (s2, s2.userIdentifiers u.id)
  else (s, existing)

/-- The empty store, starting point of the concrete scenarios. -/
def store0 : Store := { identifiers := [], nextId := 0, nextUserId := 0 }

/-- Plain virtual-mode configuration with no recovery gate. -/
def cfgVirtual : Config := { mode := Mode.virtualMode, minimumRecoveryLevel := none }

/-- Virtual-mode configuration demanding FULL recovery at sign-in. -/
def cfgFull : Config :=
  { mode := Mode.virtualMode, minimumRecoveryLevel := some RecoveryLevel.full }

/-- The identifier row the §8 normalization scenario's email sign-up
produces. -/
def rowFoo : Identifier :=
  { id := 0, userId := 0, type := "email", value := "foo@bar.com",
    verified := false, credentialHash := some (hashPassword "pw1"), provider := none }

/-- The store holding the scenario user after its email sign-up. -/
def storeFoo : Store := { identifiers := [rowFoo], nextId := 1, nextUserId := 1 }

/-- The username identifier row of the second scenario user. -/
def rowCase : Identifier :=
  { id := 1, userId := 1, type := "username", value := "CaseSensitiveUser",
    verified := true, credentialHash := some (hashPassword "pw2"), provider := none }

/-- The store holding both scenario users. -/
def storeCase : Store := { identifiers := [rowFoo, rowCase], nextId := 2, nextUserId := 2 }

/-- The scenario email row after verification. -/
def rowFooV : Identifier :=
  { id := 0, userId := 0, type := "email", value := "foo@bar.com",
    verified := true, credentialHash := some (hashPassword "pw1"), provider := none }

/-- The scenario store after the email identifier is verified. -/
def storeFooV : Store := { identifiers := [rowFooV], nextId := 1, nextUserId := 1 }

/-!  Helper lemmas shared by the claim theorems. -/

theorem find?_append_of_none {α : Type} (p : α → Bool) (l1 l2 : List α)
    (h : l1.find? p = none) : (l1 ++ l2).find? p = l2.find? p := by
  rw [List.find?_append, h, Option.none_or]

theorem map_id_of_fix {α : Type} (f : α → α) (l : List α)
    (h : ∀ x ∈ l, f x = x) : l.map f = l := by
  induction l with
  | nil => rfl
  | cons a as ih =>
      simp only [List.map_cons]
      rw [h a (by simp), ih (fun x hx => h x (by simp [hx]))]

theorem anyContact_iff (ids : List Identifier) :
    ids.any isVerifiedContact = true ↔
      ∃ i ∈ ids, (i.type = "email" ∨ i.type = "phone") ∧ i.verified = true := by
  simp [List.any_eq_true, isVerifiedContact]

theorem anyFederated_iff (ids : List Identifier) :
    ids.any isVerifiedFederated = true ↔
      ∃ i ∈ ids, i.type = "oauth" ∧ i.verified = true := by
  simp [List.any_eq_true, isVerifiedFederated]

theorem anyNonAnon_iff (ids : List Identifier) :
    (ids.any (fun i => !(isAnonymousMarker i))) = true ↔
      ∃ i ∈ ids, i.type ≠ "anonymous" := by
  simp [List.any_eq_true, isAnonymousMarker]

theorem recoveryLevel_eq_full_iff (ids : List Identifier) :
    recoveryLevel ids = RecoveryLevel.full ↔ ids.any isVerifiedContact = true := by
  unfold recoveryLevel
  cases h1 : ids.any isVerifiedContact
  · cases h2 : ids.any isVerifiedFederated
    · cases h3 : ids.any (fun i => !(isAnonymousMarker i)) <;> simp [h1, h2, h3]
    · simp [h1, h2]
  · simp [h1]

theorem recoveryLevel_eq_partial_iff (ids : List Identifier) :
    recoveryLevel ids = RecoveryLevel.partialTrust ↔
      ids.any isVerifiedContact = false ∧ ids.any isVerifiedFederated = true := by
  unfold recoveryLevel
  cases h1 : ids.any isVerifiedContact
  · cases h2 : ids.any isVerifiedFederated
    · cases h3 : ids.any (fun i => !(isAnonymousMarker i)) <;> simp [h1, h2, h3]
    · simp [h1, h2]
  · simp [h1]

theorem recoveryLevel_eq_pseudo_iff (ids : List Identifier) :
    recoveryLevel ids = RecoveryLevel.pseudonymous ↔
      ids.any isVerifiedContact = false ∧ ids.any isVerifiedFederated = false
        ∧ (ids.any (fun i => !(isAnonymousMarker i))) = true := by
  unfold recoveryLevel
  cases h1 : ids.any isVerifiedContact
  · cases h2 : ids.any isVerifiedFederated
    · cases h3 : ids.any (fun i => !(isAnonymousMarker i)) <;> simp [h1, h2, h3]
    · simp [h1, h2]
  · simp [h1]

/-- Claim C2: the recovery classifier is a pure function of the identifier list
evaluated top-down with first match winning: FULL exactly when some email or
phone identifier is verified; else PARTIAL exactly when some oauth
identifier is verified; else PSEUDONYMOUS exactly when some identifier that
is not the synthetic anonymous marker exists; a user with zero identifiers
is ANONYMOUS; and appending a verified email identifier to any identifier
list yields FULL. -/
theorem recovery_classifier_rules (ids : List Identifier) :
    (recoveryLevel ids = RecoveryLevel.full ↔
      ∃ i ∈ ids, (i.type = "email" ∨ i.type = "phone") ∧ i.verified = true)
    ∧ (recoveryLevel ids = RecoveryLevel.partialTrust ↔
      ((¬ ∃ i ∈ ids, (i.type = "email" ∨ i.type = "phone") ∧ i.verified = true)
        ∧ ∃ i ∈ ids, i.type = "oauth" ∧ i.verified = true))
    ∧ (recoveryLevel ids = RecoveryLevel.pseudonymous ↔
      ((¬ ∃ i ∈ ids, (i.type = "email" ∨ i.type = "phone") ∧ i.verified = true)
        ∧ (¬ ∃ i ∈ ids, i.type = "oauth" ∧ i.verified = true)
        ∧ ∃ i ∈ ids, i.type ≠ "anonymous"))
    ∧ recoveryLevel ([] : List Identifier) = RecoveryLevel.anonymous
    ∧ (∀ j : Identifier, j.type = "email" → j.verified = true →
        recoveryLevel (ids ++ [j]) = RecoveryLevel.full) := by
  refine ⟨?_, ?_, ?_, rfl, ?_⟩
  · rw [recoveryLevel_eq_full_iff, anyContact_iff]
  · rw [recoveryLevel_eq_partial_iff, ← anyContact_iff, ← anyFederated_iff]
    simp [Bool.not_eq_true]
  · rw [recoveryLevel_eq_pseudo_iff, ← anyContact_iff, ← anyFederated_iff, ← anyNonAnon_iff]
    simp [Bool.not_eq_true]
  · intro j hj hv
    rw [recoveryLevel_eq_full_iff, List.any_append]
    simp [isVerifiedContact, hj, hv]

/-- Witness for C2: an empty identifier list classifies ANONYMOUS, and a
username-only user gains FULL on adding a verified email identifier. -/
theorem recovery_classifier_rules_witness :
    recoveryLevel ([] : List Identifier) = RecoveryLevel.anonymous
    ∧ recoveryLevel ([rowCase] ++
        [{ id := 2, userId := 1, type := "email", value := "a@b.c",
           verified := true, credentialHash := none, provider := none }]) =
        RecoveryLevel.full :=
  ⟨(recovery_classifier_rules []).2.2.2.1,
   (recovery_classifier_rules [rowCase]).2.2.2.2
     { id := 2, userId := 1, type := "email", value := "a@b.c",
       verified := true, credentialHash := none, provider := none } rfl rfl⟩

theorem filter_eq_nil_of_find?_none {α : Type} (p : α → Bool) (l : List α)
    (h : l.find? p = none) : l.filter p = [] := by
  rw [List.filter_eq_nil_iff]
  exact fun a ha hpa => (List.find?_eq_none.mp h a ha) hpa

theorem find?_filter_of_none {α : Type} (p q : α → Bool) (l : List α)
    (h : l.find? p = none) : (l.filter q).find? p = none := by
  rw [List.find?_eq_none] at h ⊢
  exact fun x hx => h x (List.mem_of_mem_filter hx)

theorem filter_eq_nil_of_sublist {α : Type} (p : α → Bool) (l1 l2 : List α)
    (h : List.Sublist l1 l2) (he : l2.filter p = []) : l1.filter p = [] :=
  List.sublist_nil.mp (he ▸ h.filter p)

/-- Claim C1: two identifier-create attempts with the same type and
equal-after-normalization values on behalf of two different users, through
the raw createIdentifier operation or through sign-up, yield exactly one
success and one IdentifierConflict, and afterwards exactly one identifier
row with that (type, normalizedValue) key exists system-wide. -/
theorem identifier_uniqueness (s : Store) (u1 u2 : Nat) (t v1 v2 : String)
    (vb1 vb2 : Bool) (h1 h2 p1 p2 : Option String) (pw1 pw2 : String)
    (hnorm : normalize t v1 = normalize t v2)
    (hfree : s.lookup t (normalize t v1) = none)
    (hdiff : u1 ≠ u2) :
    (∃ s1 i1, createIdentifier s u1 t v1 vb1 h1 p1 = Except.ok (s1, i1)
      ∧ createIdentifier s1 u2 t v2 vb2 h2 p2 = Except.error AuthError.identifierConflict
      ∧ s1.countKey t (normalize t v1) = 1)
    ∧ (∃ s1 uid1 i1, signUpWithIdentifier s t v1 pw1 = Except.ok (s1, uid1, i1)
      ∧ signUpWithIdentifier s1 t v2 pw2 = Except.error AuthError.identifierConflict
      ∧ s1.countKey t (normalize t v1) = 1) := by
  have hfree' : s.identifiers.find? (fun i => i.type == t && i.value == normalize t v1) = none := hfree
  have hfilter : s.identifiers.filter (fun i => i.type == t && i.value == normalize t v1) = [] :=
    filter_eq_nil_of_find?_none _ _ hfree'
  constructor
  · refine ⟨⟨s.identifiers ++ [⟨s.nextId, u1, t, normalize t v1, vb1, h1, p1⟩],
      s.nextId + 1, s.nextUserId⟩, ⟨s.nextId, u1, t, normalize t v1, vb1, h1, p1⟩,
      ?_, ?_, ?_⟩
    · unfold createIdentifier
      simp only [Store.lookup]
      rw [hfree']
    · unfold createIdentifier
      simp only [Store.lookup, ← hnorm]
      rw [find?_append_of_none _ _ _ hfree']
      simp [beq_eq_false_iff_ne.mpr hdiff]
    · unfold Store.countKey
      simp only [List.filter_append, hfilter]
      simp
  · refine ⟨⟨s.identifiers ++ [⟨s.nextId, s.nextUserId, t, normalize t v1, defaultVerified t,
      some (hashPassword pw1), none⟩], s.nextId + 1, s.nextUserId + 1⟩,
      s.nextUserId, ⟨s.nextId, s.nextUserId, t, normalize t v1, defaultVerified t,
      some (hashPassword pw1), none⟩, ?_, ?_, ?_⟩
    · unfold signUpWithIdentifier createIdentifier
      simp only [Store.lookup]
      rw [hfree']
    · unfold signUpWithIdentifier createIdentifier
      simp only [Store.lookup, ← hnorm]
      rw [find?_append_of_none _ _ _ hfree']
      simp
    · unfold Store.countKey
      simp only [List.filter_append, hfilter]
      simp

/-- Witness for C1 at a concrete store: user 7 claims the key first (with a
differently-cased, differently-padded raw value than user 8 submits), user 8
collides, one row remains. -/
theorem identifier_uniqueness_witness :
    (∃ s1 i1, createIdentifier store0 7 "email" "Dup@Example.com" false none none =
        Except.ok (s1, i1)
      ∧ createIdentifier s1 8 "email" " dup@example.com " false none none =
          Except.error AuthError.identifierConflict
      ∧ s1.countKey "email" (normalize "email" "Dup@Example.com") = 1)
    ∧ (∃ s1 uid1 i1, signUpWithIdentifier store0 "email" "Dup@Example.com" "pw1" =
        Except.ok (s1, uid1, i1)
      ∧ signUpWithIdentifier s1 "email" " dup@example.com " "pw2" =
          Except.error AuthError.identifierConflict
      ∧ s1.countKey "email" (normalize "email" "Dup@Example.com") = 1) :=
  identifier_uniqueness store0 7 8 "email" "Dup@Example.com" " dup@example.com "
    false false none none none none "pw1" "pw2" rfl rfl (by decide)

/-- Claim C3: sign-in with a wrong password for a registered identifier and
sign-in for an unregistered identifier of the same type both fail, and the
two runs produce byte-identical error message content. -/
theorem sign_in_enumeration_resistance (cfg : Config) (s : Store) (t e n pw1 pw2 : String)
    (i : Identifier)
    (hreg : s.lookup t (normalize t e) = some i)
    (hwrong : checkPassword i pw1 = false)
    (hnone : s.lookup t (normalize t n) = none) :
    ∃ err1 err2 : AuthError,
      signInWithIdentifier cfg s t e pw1 = Except.error err1
      ∧ signInWithIdentifier cfg s t n pw2 = Except.error err2
      ∧ err1.message = err2.message := by
  refine ⟨AuthError.invalidCredentials, AuthError.invalidCredentials, ?_, ?_, rfl⟩
  · unfold signInWithIdentifier
    rw [hreg]
    simp [hwrong]
  · unfold signInWithIdentifier
    rw [hnone]

/-- Witness for C3 at the scenario store: wrong password for the registered
email and any password for an unknown email fail with equal messages. -/
theorem sign_in_enumeration_resistance_witness :
    ∃ err1 err2 : AuthError,
      signInWithIdentifier cfgVirtual storeFoo "email" "foo@bar.com" "wrong" =
          Except.error err1
      ∧ signInWithIdentifier cfgVirtual storeFoo "email" "nobody@example.com" "any" =
          Except.error err2
      ∧ err1.message = err2.message :=
  sign_in_enumeration_resistance cfgVirtual storeFoo "email" "foo@bar.com"
    "nobody@example.com" "wrong" "any" rowFoo rfl rfl rfl

/-- Claim C4: adding a (type, value) pair the same user already owns (after
normalization) is a no-op success returning the unchanged store and the
existing row, not an error. -/
theorem idempotent_same_user_add (s : Store) (u : Nat) (t v : String) (vv : Bool)
    (hh : Option String) (r : Identifier)
    (hfound : s.lookup t (normalize t v) = some r)
    (howner : r.userId = u) :
    addIdentifier s u t v vv hh = Except.ok (s, r) := by
  unfold addIdentifier createIdentifier
  simp only [hfound]
  simp [howner]

/-- Witness for C4: re-adding the scenario user's own email (cased and
padded differently) returns the unchanged store and the existing row. -/
theorem idempotent_same_user_add_witness :
    addIdentifier storeFoo 0 "email" " FOO@bar.com " true (some "x") =
      Except.ok (storeFoo, rowFoo) :=
  idempotent_same_user_add storeFoo 0 "email" " FOO@bar.com " true (some "x") rowFoo rfl rfl

/-- Claim C5: sign-up with the email identifier "  Foo@Bar.com  " stores the
normalized value "foo@bar.com" and sign-in succeeds with both
"foo@bar.com" and "FOO@BAR.COM"; a username identifier is stored with case
preserved, sign-in with a differently-cased variant fails and only the
exact-case sign-in succeeds. -/
theorem normalization_scenario :
    signUpWithIdentifier store0 "email" "  Foo@Bar.com  " "pw1" = Except.ok (storeFoo, 0, rowFoo)
    ∧ rowFoo.value = "foo@bar.com"
    ∧ signInWithIdentifier cfgVirtual storeFoo "email" "foo@bar.com" "pw1" = Except.ok 0
    ∧ signInWithIdentifier cfgVirtual storeFoo "email" "FOO@BAR.COM" "pw1" = Except.ok 0
    ∧ signUpWithIdentifier storeFoo "username" "CaseSensitiveUser" "pw2" =
        Except.ok (storeCase, 1, rowCase)
    ∧ rowCase.value = "CaseSensitiveUser"
    ∧ signInWithIdentifier cfgVirtual storeCase "username" "casesensitiveuser" "pw2" =
        Except.error AuthError.invalidCredentials
    ∧ signInWithIdentifier cfgVirtual storeCase "username" "CaseSensitiveUser" "pw2" =
        Except.ok 1 :=
  ⟨rfl, rfl, rfl, rfl, rfl, rfl, rfl, rfl⟩

/-- Claim C6: in virtual mode, a legacy email write carrying a different
normalized value deletes the old email identifier and creates a new one
with verification reset to false and no credential hash, after which the
user holds exactly that one email identifier and a lookup by the old key
returns nothing; a write whose normalized value is unchanged (raw value
differing only by whitespace or case) leaves the store — hence the prior
verification status and credential hash — intact. -/
theorem legacy_email_write (cfg : Config) (s : Store) (uid : Nat) (old : Identifier)
    (hcfg : cfg.mode = Mode.virtualMode)
    (hone : emailIdentifiers s uid = [old])
    (hkey : ∀ i ∈ s.identifiers, i.type = "email" → i.value = old.value → i = old) :
    (∀ newEmail, normalize "email" newEmail ≠ old.value →
      s.lookup "email" (normalize "email" newEmail) = none →
      ∃ s2, updateUserEmail cfg s uid newEmail none = Except.ok s2
        ∧ emailIdentifiers s2 uid =
            [{ id := s.nextId, userId := uid, type := "email",
               value := normalize "email" newEmail, verified := false,
               credentialHash := none, provider := none }]
        ∧ s2.lookup "email" old.value = none)
    ∧ (∀ newEmail, normalize "email" newEmail = old.value →
      updateUserEmail cfg s uid newEmail none = Except.ok s) := by
  have hfirst : firstEmailIdentifier s uid = some old := by
    unfold firstEmailIdentifier
    rw [hone]
    rfl
  have holdin : old ∈ emailIdentifiers s uid := by rw [hone]; simp
  have holdmem : old ∈ s.identifiers := List.mem_of_mem_filter holdin
  have holduid : (old.userId == uid && old.type == "email") = true :=
    (List.mem_filter.mp holdin).2
  constructor
  · intro newEmail hne hfree
    have hfree1 : ((s.identifiers.filter (fun i => i.id != old.id)).find?
        (fun i => i.type == "email" && i.value == normalize "email" newEmail)) = none :=
      find?_filter_of_none _ _ _ hfree
    refine ⟨⟨(s.identifiers.filter (fun i => i.id != old.id)) ++
        [{ id := s.nextId, userId := uid, type := "email",
           value := normalize "email" newEmail, verified := false,
           credentialHash := none, provider := none }],
        s.nextId + 1, s.nextUserId⟩, ?_, ?_, ?_⟩
    · unfold updateUserEmail
      rw [hcfg]
      simp only [hfirst]
      rw [if_neg (by simp [beq_eq_false_iff_ne.mpr (Ne.symm hne)])]
      unfold deleteIdentifier createIdentifier
      simp only [Store.lookup]
      rw [hfree1]
      rfl
    · unfold emailIdentifiers
      rw [List.filter_append]
      have h2 : List.filter (fun i => i.userId == uid && i.type == "email")
          (List.filter (fun i => i.id != old.id) s.identifiers) = [] := by
        rw [List.filter_eq_nil_iff]
        intro a ha hpa
        have hm := List.mem_filter.mp ha
        have hain : a ∈ emailIdentifiers s uid :=
          List.mem_filter.mpr ⟨hm.1, hpa⟩
        rw [hone] at hain
        have haold : a = old := by simpa using hain
        rw [haold] at hm
        simp at hm
      rw [h2]
      simp
    · simp only [Store.lookup]
      rw [List.find?_eq_none]
      intro x hx hpx
      rw [Bool.and_eq_true, beq_iff_eq, beq_iff_eq] at hpx
      rcases List.mem_append.mp hx with hxf | hxr
      · have hm := List.mem_filter.mp hxf
        have hxold := hkey x hm.1 hpx.1 hpx.2
        rw [hxold] at hm
        simp at hm
      · have hxrow : x = ⟨s.nextId, uid, "email", normalize "email" newEmail,
            false, none, none⟩ := by simpa using hxr
        rw [hxrow] at hpx
        exact hne hpx.2
  · intro newEmail heq
    unfold updateUserEmail
    rw [hcfg]
    simp only [hfirst]
    rw [if_pos (by rw [heq]; exact beq_self_eq_true _)]
    simp only [Option.getD_none]
    have hmap : s.identifiers.map (fun i =>
        if i.id == old.id then { i with verified := i.verified } else i) = s.identifiers := by
      apply map_id_of_fix
      intro x _
      split <;> rfl
    rw [hmap]

/-- Witness for C6 at the scenario store: writing a new email replaces the
identifier and forgets the old key; re-writing the same address in
different casing and padding is a no-op keeping the store intact. -/
theorem legacy_email_write_witness :
    (∃ s2, updateUserEmail cfgVirtual storeFoo 0 "new@example.com" none = Except.ok s2
      ∧ emailIdentifiers s2 0 =
          [{ id := storeFoo.nextId, userId := 0, type := "email",
             value := normalize "email" "new@example.com", verified := false,
             credentialHash := none, provider := none }]
      ∧ s2.lookup "email" rowFoo.value = none)
    ∧ updateUserEmail cfgVirtual storeFoo 0 " FOO@bar.com  " none = Except.ok storeFoo :=
  ⟨(legacy_email_write cfgVirtual storeFoo 0 rowFoo rfl rfl (by decide)).1
      "new@example.com" (by decide) rfl,
   (legacy_email_write cfgVirtual storeFoo 0 rowFoo rfl rfl (by decide)).2
      " FOO@bar.com  " (by decide)⟩

/-- Claim C7: translating the legacy filter on the email field yields the
relational existence predicate over the identifier relation — satisfied by
a user exactly when the user owns an email identifier whose normalized
value is the normalization of the filtered value, verified or not — and
composite and unrelated-field predicates keep their structure. -/
theorem query_translation (s : Store) (v : String) (uid : Nat)
    (others : String → String → Bool) :
    (evalStorageFilter s uid others (translateFilter (LegacyFilter.emailEq v)) = true ↔
      ∃ i ∈ s.identifiers, i.userId = uid ∧ i.type = "email" ∧ i.value = normalize "email" v)
    ∧ translateFilter (LegacyFilter.emailEq v) =
        StorageFilter.identExists "email" (normalize "email" v)
    ∧ (∀ f w, translateFilter (LegacyFilter.fieldEq f w) = StorageFilter.fieldEq f w)
    ∧ (∀ a b, translateFilter (LegacyFilter.and a b) =
        StorageFilter.and (translateFilter a) (translateFilter b))
    ∧ (∀ a b, translateFilter (LegacyFilter.or a b) =
        StorageFilter.or (translateFilter a) (translateFilter b)) := by
  refine ⟨?_, rfl, fun f w => rfl, fun a b => rfl, fun a b => rfl⟩
  simp [translateFilter, evalStorageFilter, List.any_eq_true, and_assoc]

theorem createIfAbsent_sublist (s : Store) (uid : Nat) (t raw : String) (vv : Bool)
    (hh pp : Option String) :
    List.Sublist s.identifiers (createIfAbsent s uid t raw vv hh pp).identifiers := by
  unfold createIfAbsent
  cases h : s.lookup t (normalize t raw) <;> simp [h]

theorem createIfAbsent_of_user_empty (s : Store) (uid : Nat) (t raw : String) (vv : Bool)
    (hh pp : Option String)
    (h : Store.userIdentifiers (createIfAbsent s uid t raw vv hh pp) uid = []) :
    createIfAbsent s uid t raw vv hh pp = s := by
  unfold createIfAbsent at h ⊢
  cases hl : s.lookup t (normalize t raw)
  · exfalso
    simp only [hl] at h
    simp only [Store.userIdentifiers, List.filter_append] at h
    simp at h
  · simp [hl]

theorem migrateAccounts_sublist (uid : Nat) (accs : List LinkedAccount) :
    ∀ s : Store, List.Sublist s.identifiers (migrateAccounts uid s accs).identifiers := by
  induction accs with
  | nil => intro s; exact List.Sublist.refl _
  | cons a rest ih =>
      intro s
      unfold migrateAccounts
      exact List.Sublist.trans (createIfAbsent_sublist s uid "oauth" _ true none _) (ih _)

theorem migrateAccounts_of_user_empty (uid : Nat) (accs : List LinkedAccount) :
    ∀ s : Store, Store.userIdentifiers (migrateAccounts uid s accs) uid = [] →
      migrateAccounts uid s accs = s := by
  induction accs with
  | nil => intro s _; rfl
  | cons a rest ih =>
      intro s h
      unfold migrateAccounts at h ⊢
      have hs1 : Store.userIdentifiers
          (createIfAbsent s uid "oauth"
            (String.append a.provider (String.append "|" a.providerAccountId))
            true none (some a.provider)) uid = [] := by
        unfold Store.userIdentifiers at h ⊢
        exact filter_eq_nil_of_sublist _ _ _ (migrateAccounts_sublist uid rest _) h
      rw [ih _ h, createIfAbsent_of_user_empty _ _ _ _ _ _ _ hs1]

theorem migrateUser_of_has (s : Store) (u : LegacyUser)
    (h : (Store.userIdentifiers s u.id).isEmpty = false) :
    migrateUser s u = (s, Store.userIdentifiers s u.id) := by
  simp only [migrateUser, h, Bool.false_eq_true, if_false]

theorem migrateUser_of_empty (s : Store) (u : LegacyUser)
    (h : (Store.userIdentifiers s u.id).isEmpty = true) :
    migrateUser s u =
      (migrateAccounts u.id
        (match u.email with
         | some e => createIfAbsent s u.id "email" e u.emailVerified u.passwordHash none
         | none => s) u.accounts,
       Store.userIdentifiers
        (migrateAccounts u.id
          (match u.email with
           | some e => createIfAbsent s u.id "email" e u.emailVerified u.passwordHash none
           | none => s) u.accounts) u.id) := by
  simp only [migrateUser, h, if_true]

/-- Claim C8: migrateUser is idempotent — run a second time on the same
user it is a no-op returning exactly the identifier set the first run left
behind, and the returned set is always the user's current identifier set,
so no duplicates are created. -/
theorem migrate_user_idempotent (s : Store) (u : LegacyUser) :
    migrateUser (migrateUser s u).1 u = migrateUser s u
    ∧ (migrateUser s u).2 = Store.userIdentifiers (migrateUser s u).1 u.id := by
  cases he : (Store.userIdentifiers s u.id).isEmpty
  · constructor
    · rw [migrateUser_of_has s u he, migrateUser_of_has s u he]
    · rw [migrateUser_of_has s u he]
  · have h1 := migrateUser_of_empty s u he
    constructor
    · cases h2 : (Store.userIdentifiers
          (migrateAccounts u.id
            (match u.email with
             | some e => createIfAbsent s u.id "email" e u.emailVerified u.passwordHash none
             | none => s) u.accounts) u.id).isEmpty
      · rw [h1]
        rw [migrateUser_of_has _ u h2]
      · have hsub : Store.userIdentifiers
            (migrateAccounts u.id
              (match u.email with
               | some e => createIfAbsent s u.id "email" e u.emailVerified u.passwordHash none
               | none => s) u.accounts) u.id = [] := List.isEmpty_iff.mp h2
        have hacc := migrateAccounts_of_user_empty u.id u.accounts _ hsub
        have hs1 : (match u.email with
            | some e => createIfAbsent s u.id "email" e u.emailVerified u.passwordHash none
            | none => s) = s := by
          cases hem : u.email with
          | none => rfl
          | some e =>
              apply createIfAbsent_of_user_empty
              rw [hem] at hacc
              rw [hem] at hsub
              rw [hacc] at hsub
              exact hsub
        have hs2 : migrateAccounts u.id
            (match u.email with
             | some e => createIfAbsent s u.id "email" e u.emailVerified u.passwordHash none
             | none => s) u.accounts = s := by
          rw [hacc, hs1]
        have h1' : migrateUser s u = (s, Store.userIdentifiers s u.id) := by
          rw [h1]
          rw [hs2]
        rw [h1']
        exact h1'
    · rw [h1]

/-- Claim C9: with a configured minimum recovery level, sign-in with correct
credentials fails with the RecoveryLevelInsufficient policy error exactly
while the user's recovery level — recomputed from the identifier set
fetched for this request — ranks strictly below the minimum, and succeeds
once it ranks at least as high. -/
theorem recovery_gate (cfg : Config) (s : Store) (t raw pw : String)
    (i : Identifier) (lvl : RecoveryLevel)
    (hreg : s.lookup t (normalize t raw) = some i)
    (hpw : checkPassword i pw = true)
    (hcfg : cfg.minimumRecoveryLevel = some lvl) :
    ((recoveryLevel (s.userIdentifiers i.userId)).rank < lvl.rank →
      signInWithIdentifier cfg s t raw pw = Except.error AuthError.recoveryInsufficient)
    ∧ (lvl.rank ≤ (recoveryLevel (s.userIdentifiers i.userId)).rank →
      signInWithIdentifier cfg s t raw pw = Except.ok i.userId) := by
  constructor
  · intro hlt
    unfold signInWithIdentifier
    rw [hreg]
    simp [hpw, hcfg, hlt]
  · intro hge
    unfold signInWithIdentifier
    rw [hreg]
    simp [hpw, hcfg, Nat.not_lt.mpr hge]

/-- Witness for C9: under a FULL minimum the unverified scenario user is
rejected with the policy error, and after its email row is verified the same
sign-in succeeds. -/
theorem recovery_gate_witness :
    signInWithIdentifier cfgFull storeFoo "email" "foo@bar.com" "pw1" =
        Except.error AuthError.recoveryInsufficient
    ∧ signInWithIdentifier cfgFull storeFooV "email" "foo@bar.com" "pw1" = Except.ok 0 :=
  ⟨(recovery_gate cfgFull storeFoo "email" "foo@bar.com" "pw1" rowFoo
      RecoveryLevel.full rfl rfl rfl).1 (by decide),
   (recovery_gate cfgFull storeFooV "email" "foo@bar.com" "pw1" rowFooV
      RecoveryLevel.full rfl rfl rfl).2 (by decide)⟩

/-- Claim C10: sign-up creates the new identifier with a type-dependent
verification default — verified for username, unverified for email and for
phone — and a fresh username-only user, though verified, classifies only
PSEUDONYMOUS. -/
theorem sign_up_verified_defaults (s : Store) (v pw : String) :
    ((s.lookup "username" (normalize "username" v) = none) →
      ∃ s1 i, signUpWithIdentifier s "username" v pw = Except.ok (s1, s.nextUserId, i)
        ∧ i.verified = true)
    ∧ ((s.lookup "email" (normalize "email" v) = none) →
      ∃ s1 i, signUpWithIdentifier s "email" v pw = Except.ok (s1, s.nextUserId, i)
        ∧ i.verified = false)
    ∧ ((s.lookup "phone" (normalize "phone" v) = none) →
      ∃ s1 i, signUpWithIdentifier s "phone" v pw = Except.ok (s1, s.nextUserId, i)
        ∧ i.verified = false)
    ∧ ((s.lookup "username" (normalize "username" v) = none) →
      (s.userIdentifiers s.nextUserId = []) →
      ∃ s1 i, signUpWithIdentifier s "username" v pw = Except.ok (s1, s.nextUserId, i)
        ∧ i.verified = true
        ∧ recoveryLevel (s1.userIdentifiers s.nextUserId) = RecoveryLevel.pseudonymous) := by
  refine ⟨?_, ?_, ?_, ?_⟩
  · intro hfree
    unfold signUpWithIdentifier createIdentifier
    simp only [Store.lookup] at hfree ⊢
    rw [hfree]
    exact ⟨_, _, rfl, rfl⟩
  · intro hfree
    unfold signUpWithIdentifier createIdentifier
    simp only [Store.lookup] at hfree ⊢
    rw [hfree]
    exact ⟨_, _, rfl, rfl⟩
  · intro hfree
    unfold signUpWithIdentifier createIdentifier
    simp only [Store.lookup] at hfree ⊢
    rw [hfree]
    exact ⟨_, _, rfl, rfl⟩
  · intro hfree hmine
    unfold signUpWithIdentifier createIdentifier
    simp only [Store.lookup] at hfree ⊢
    rw [hfree]
    refine ⟨_, _, rfl, rfl, ?_⟩
    have hui : Store.userIdentifiers
        { identifiers := s.identifiers ++
            [{ id := s.nextId, userId := s.nextUserId, type := "username",
               value := normalize "username" v,
               verified := defaultVerified "username",
               credentialHash := some (hashPassword pw), provider := none }],
          nextId := s.nextId + 1, nextUserId := s.nextUserId + 1 } s.nextUserId =
        [{ id := s.nextId, userId := s.nextUserId, type := "username",
           value := normalize "username" v,
           verified := defaultVerified "username",
           credentialHash := some (hashPassword pw), provider := none }] := by
      simp only [Store.userIdentifiers, List.filter_append]
      simp only [Store.userIdentifiers] at hmine
      rw [hmine]
      simp
    rw [hui]
    rw [recoveryLevel_eq_pseudo_iff]
    refine ⟨?_, ?_, ?_⟩ <;>
      simp [isVerifiedContact, isVerifiedFederated, isAnonymousMarker, defaultVerified]

/-- Witness for C10: signing the first user up with a bare username yields a
verified identifier and a PSEUDONYMOUS classification. -/
theorem sign_up_verified_defaults_witness :
    ∃ s1 i, signUpWithIdentifier store0 "username" "someuser" "pw" =
        Except.ok (s1, store0.nextUserId, i)
      ∧ i.verified = true
      ∧ recoveryLevel (s1.userIdentifiers store0.nextUserId) = RecoveryLevel.pseudonymous :=
  (sign_up_verified_defaults store0 "someuser" "pw").2.2.2 rfl rfl

end BetterAuth
